import Mathlib

/-!
# Shallow embedding of the vrpn-rs wire codec

This development embeds the buffer/unbuffer codec layer of the vrpn-rs
repository: the message frame codec and size geometry from
`vrpn-buffer/src/message.rs`, the constant-size unbuffer machinery from
`vrpn-buffer/src/traits.rs`, the cookie codec from `vrpn-buffer/src/cookie.rs`,
the newer-crate unbuffer machinery from `src/unbuffer.rs`, the tracker pose
report from `src/tracker.rs`, and the cookie handshake I/O order from
`vrpn/src/connect.rs`.

Byte buffers are `List Nat` (each element a byte value `0..255` as produced by
the encoders). Rust `usize` arithmetic is modelled explicitly: subtractions
that can underflow and additions that can overflow use wrapping arithmetic
modulo `2 ^ 64` (release-build semantics; debug builds would panic at the same
spots). Operations that panic in Rust (`Bytes::split_to`/`Buf::advance` past
the end of the buffer) are modelled by a distinguished `panic` result.
-/

namespace VrpnRs

/-- Modulus of Rust `usize` arithmetic (64-bit targets). -/
def USIZE : Nat := 2 ^ 64

/-- Wrapping `usize` subtraction `a - b`, as it behaves in Rust release builds
(debug builds panic on underflow instead of wrapping). -/
def usizeSub (a b : Nat) : Nat := (a + USIZE - b) % USIZE

/-- Constant `ALIGN` from `vrpn_base::constants` (crate not under src/; the
spec fixes `ALIGN = 8`, and message.rs imports it for its padding math). -/
def ALIGN : Nat := 8

/-- Function `compute_padding` from vrpn-buffer/src/message.rs (lines 55-58):
`ALIGN - (len % ALIGN)`.  Note there is no final reduction mod `ALIGN`, so the
result ranges over `1..=ALIGN`, never 0. -/
def compute_padding (len : Nat) : Nat := ALIGN - len % ALIGN

/-- Function `padded` from vrpn-buffer/src/message.rs (lines 60-63):
`len + compute_padding(len)`, a wrapping `usize` addition. -/
def padded (len : Nat) : Nat := (len + compute_padding len) % USIZE

/-- Constant `MessageSize::UNPADDED_HEADER_SIZE = 5 * 4` from
vrpn-buffer/src/message.rs. -/
def UNPADDED_HEADER_SIZE : Nat := 5 * 4

/-- Method `MessageSize::unpadded_message_size` (message.rs lines 91-94):
the value stored in the length field. -/
def unpadded_message_size (unpadded_body_size : Nat) : Nat :=
  (unpadded_body_size + UNPADDED_HEADER_SIZE) % USIZE

/-- Method `MessageSize::padded_body_size` (message.rs lines 96-99). -/
def padded_body_size (unpadded_body_size : Nat) : Nat := padded unpadded_body_size

/-- Method `MessageSize::padded_message_size` (message.rs lines 104-107):
`padded_body_size() + padded(UNPADDED_HEADER_SIZE)`. -/
def padded_message_size (unpadded_body_size : Nat) : Nat :=
  (padded unpadded_body_size + padded UNPADDED_HEADER_SIZE) % USIZE

/-- Big-endian byte list of a 32-bit value (the `put_u32_be` primitive). -/
def u32_be (v : Nat) : List Nat :=
  [v / 2 ^ 24 % 256, v / 2 ^ 16 % 256, v / 2 ^ 8 % 256, v % 256]

/-- Two's-complement 32-bit pattern of an `i32` value. -/
def i32_bits (v : Int) : Nat := (v % (2 ^ 32 : Int)).toNat

/-- Big-endian byte list of an `i32` value. -/
def i32_be (v : Int) : List Nat := u32_be (i32_bits v)

/-- Big-endian byte list of a 64-bit pattern (used for `f64` payload bytes,
which the codec moves verbatim without interpreting). -/
def u64_be (v : Nat) : List Nat :=
  [v / 2 ^ 56 % 256, v / 2 ^ 48 % 256, v / 2 ^ 40 % 256, v / 2 ^ 32 % 256,
   v / 2 ^ 24 % 256, v / 2 ^ 16 % 256, v / 2 ^ 8 % 256, v % 256]

/-- Big-endian value of a byte list (the `get_uXX_be` primitives; elements are
reduced mod 256 since the wire holds `u8`s). -/
def be_to_nat (bs : List Nat) : Nat := bs.foldl (fun a b => a * 256 + b % 256) 0

/-- Signed interpretation of a 32-bit pattern. -/
def i32_of_bits (n : Nat) : Int :=
  if n % 2 ^ 32 < 2 ^ 31 then (n % 2 ^ 32 : Nat) else (n % 2 ^ 32 : Nat) - 2 ^ 32

/-- Type `BytesRequired` from vrpn-buffer/src/traits.rs (lines 239-244). -/
inductive BytesRequired
  | Exactly (n : Nat)
  | AtLeast (n : Nat)
  | Unknown
deriving DecidableEq

/-- Error type `unbuffer::Error` from vrpn-buffer/src/traits.rs (lines 48-70);
the string payloads of `ParseInt`/`ParseError` are dropped. -/
inductive UError
  | NeedMoreData (needed : BytesRequired)
  | InvalidDecimalDigit
  | UnexpectedAsciiData (actual expected : List Nat)
  | ParseIntErr
  | ParseErr
deriving DecidableEq

/-- Result of running an unbuffer operation of the vrpn-buffer crate against a
byte buffer.  `err`/`ok` carry the buffer contents left after the call (the
Rust functions mutate the `Bytes` in place); `panic` marks a Rust panic
(`Bytes::split_to` past the end of the buffer). -/
inductive DR (α : Type)
  | panic
  | err (e : UError) (rest : List Nat)
  | ok (v : α) (rest : List Nat)
deriving DecidableEq

/-- Sequencing of unbuffer steps (the `?` operator on the Rust side). -/
def DR.bind {α β : Type} : DR α → (α → List Nat → DR β) → DR β
  | .panic, _ => .panic
  | .err e rest, _ => .err e rest
  | .ok v rest, f => f v rest

/-- Blanket `impl<T: UnbufferConstantSize> Unbuffer for T` from
vrpn-buffer/src/traits.rs (lines 127-140), for a type of constant size `len`
whose raw conversion from its bytes is `conv`.  Note the source's underfilled
branch computes the missing byte count as `buf.len() - len` — operands
reversed — which underflows in `usize` arithmetic. -/
def unbuffer_constant {α : Type} (len : Nat) (conv : List Nat → α)
    (buf : List Nat) : DR α :=
  if buf.length < len then
    .err (.NeedMoreData (.Exactly (usizeSub buf.length len))) buf
  else
    .ok (conv (List.take len buf)) (List.drop len buf)

/-- Unbuffering a `u32` (constant size 4, big-endian). -/
def unbuffer_u32 : List Nat → DR Nat := unbuffer_constant 4 be_to_nat

/-- Unbuffering an `i32` / `SenderId` / `TypeId` (constant size 4). -/
def unbuffer_i32 : List Nat → DR Int :=
  unbuffer_constant 4 fun bs => i32_of_bits (be_to_nat bs)

/-- Struct `TimeVal`: two `i32` (seconds, microseconds) back to back. -/
structure TimeVal where
  seconds : Int
  microseconds : Int
deriving DecidableEq

/-- Unbuffering a `TimeVal` (constant size 8; its impl lives in the missing
vrpn-buffer time module, modelled as the two consecutive `i32`s the spec
describes, through the same constant-size blanket impl). -/
def unbuffer_timeval : List Nat → DR TimeVal :=
  unbuffer_constant 8 fun bs =>
    ⟨i32_of_bits (be_to_nat (bs.take 4)), i32_of_bits (be_to_nat (bs.drop 4))⟩

/-- Function `check_expected` from vrpn-buffer/src/traits.rs (lines 184-198).
The underfilled branch has the same reversed `buf.len() - len` subtraction as
the blanket impl; on a mismatch the bytes have already been split off. -/
def check_expected (buf : List Nat) (expected : List Nat) : DR Unit :=
  if buf.length < expected.length then
    .err (.NeedMoreData (.Exactly (usizeSub buf.length expected.length))) buf
  else if List.take expected.length buf = expected then
    .ok () (List.drop expected.length buf)
  else
    .err (.UnexpectedAsciiData (List.take expected.length buf) expected)
      (List.drop expected.length buf)

/-- Model of `Bytes::split_to(n)`: panics when `n` exceeds the buffer length,
otherwise hands back the split-off head with the advanced buffer. -/
def split_to (bs : List Nat) (n : Nat) : DR (List Nat) :=
  if n ≤ bs.length then .ok (List.take n bs) (List.drop n bs) else .panic

/-- Method `map_exactly_err_to_at_least` (traits.rs lines 173-181) acting on
the error value. -/
def exactly_to_at_least : UError → UError
  | .NeedMoreData (.Exactly n) => .NeedMoreData (.AtLeast n)
  | e => e

/-- Method `map_exactly_err_to_at_least` acting on a whole result. -/
def map_exactly_err_to_at_least {α : Type} : DR α → DR α
  | .err e rest => .err (exactly_to_at_least e) rest
  | x => x

/-- Struct `Message<GenericBody>` from `vrpn_base::message` (crate not under
src/): timestamp, sender id, type id, raw body bytes, optional sequence
number, as the spec's wire-record section lists them. -/
structure Message where
  time : TimeVal
  sender : Int
  message_type : Int
  data : List Nat
  sequence_number : Option Nat
deriving DecidableEq

/-- Impl `BufferSize for Message<U>` (message.rs lines 154-158) with the
generic body `U = GenericBody`, whose buffer size is its byte length. -/
def buffer_size_msg (m : Message) : Nat := padded_message_size m.data.length

/-- Method `BufMutWrapper::pad_to_align` (message.rs lines 117-123): the zero
bytes appended when `written` bytes have been written so far. -/
def pad_to_align (written : Nat) : List Nat := List.replicate (compute_padding written) 0

/-- The 24 header bytes written by `Message::buffer_ref` before any padding:
length field, time, sender, type, then the sequence number
(`unwrap_or(SequenceNumber(0))`). -/
def message_header_bytes (m : Message) : List Nat :=
  u32_be (unpadded_message_size m.data.length)
    ++ i32_be m.time.seconds ++ i32_be m.time.microseconds
    ++ i32_be m.sender ++ i32_be m.message_type
    ++ u32_be (m.sequence_number.getD 0)

/-- Bytes emitted by `impl Buffer for Message<U>::buffer_ref` (message.rs
lines 160-185) into an unbounded sink: header, pad to align, body, pad to
align, with `pad_to_align` measured from the wrapper's running write count. -/
def buffer_msg_bytes (m : Message) : List Nat :=
  let hdr := message_header_bytes m
  let hdr2 := hdr ++ pad_to_align hdr.length
  let withBody := hdr2 ++ m.data
  withBody ++ pad_to_align withBody.length

/-- Outcome of a buffer (serialize) call. -/
inductive BufResult
  | outOfBuffer
  | written (bs : List Nat)
deriving DecidableEq

/-- The guarded `Message::buffer_ref` call against a sink with `cap` bytes of
space: the source returns `OutOfBuffer` when `cap < padded_message_size`. -/
def buffer_msg (m : Message) (cap : Nat) : BufResult :=
  if cap < buffer_size_msg m then .outOfBuffer else .written (buffer_msg_bytes m)

/-- Impl `Unbuffer for Message<U>::unbuffer_ref` (message.rs lines 187-235)
with `U = GenericBody`.  The length `u32` is consumed (not peeked) up front;
the underfill check compares against `padded_message_size - 4`; after the five
header fields the decoder drops `compute_padding(UNPADDED_HEADER_SIZE)` bytes,
splits off the body, and drops `compute_padding(body_len)` bytes.
`GenericBody::unbuffer_ref` (message.rs 237-243) consumes its whole slice, so
the leftover-bytes `ParseError` branch is unreachable here. -/
def unbuffer_message (buf : List Nat) : DR Message :=
  (map_exactly_err_to_at_least (unbuffer_u32 buf)).bind fun unpadded_len buf1 =>
    if buf1.length <
        usizeSub (padded_message_size (usizeSub unpadded_len UNPADDED_HEADER_SIZE)) 4 then
      .err (.NeedMoreData (.Exactly
        (usizeSub (padded_message_size (usizeSub unpadded_len UNPADDED_HEADER_SIZE)) 4
          - buf1.length))) buf1
    else
      (unbuffer_timeval buf1).bind fun time buf2 =>
      (unbuffer_i32 buf2).bind fun sender buf3 =>
      (unbuffer_i32 buf3).bind fun message_type buf4 =>
      (unbuffer_u32 buf4).bind fun seq buf5 =>
      (split_to buf5 (compute_padding UNPADDED_HEADER_SIZE)).bind fun _ buf6 =>
      (split_to buf6 (usizeSub unpadded_len UNPADDED_HEADER_SIZE)).bind fun data_buf buf7 =>
      (split_to buf7 (compute_padding (usizeSub unpadded_len UNPADDED_HEADER_SIZE))).bind
        fun _ buf8 =>
      .ok ⟨time, sender, message_type, data_buf, some seq⟩ buf8

/-! ## Cookie codec (vrpn-buffer/src/cookie.rs) -/

/-- Struct `Version` from `vrpn_base::cookie` (crate not under src/): major
and minor are `u8`. -/
structure Version where
  major : Nat
  minor : Nat
deriving DecidableEq

/-- Struct `CookieData` from `vrpn_base::cookie` (crate not under src/):
a version plus an optional log mode (modelled as its `u8` flag value). -/
structure CookieData where
  version : Version
  log_mode : Option Nat
deriving DecidableEq

/-- Modelled from the spec: constant `COOKIE_SIZE` from `vrpn_base::constants`
(crate not under src/) — the cookie frame is 24 bytes. -/
def COOKIE_SIZE : Nat := 24

/-- Constant `MAGIC_PREFIX` from `vrpn_base::constants`: the ASCII bytes of
the string `vrpn: ver. ` as the spec gives it. -/
def magicPrefixBytes : List Nat := [118, 114, 112, 110, 58, 32, 118, 101, 114, 46, 32]

/-- Constant `COOKIE_PADDING` from cookie.rs line 21: five NUL bytes. -/
def cookiePaddingBytes : List Nat := [0, 0, 0, 0, 0]

/-- Two-digit zero-padded ASCII decimal rendering of a value below 100. -/
def two_dec_digits (n : Nat) : List Nat := [48 + n / 10 % 10, 48 + n % 10]

/-- Modelled from the spec: the `Display` rendering of `CookieData` from
`vrpn_base::cookie` (crate not under src/) — the magic prefix, two-digit
major, a dot, two-digit minor, two spaces, then the one-digit log mode
(0 when absent): `vrpn: ver. MM.mm  L`. -/
def cookie_to_string (c : CookieData) : List Nat :=
  magicPrefixBytes ++ two_dec_digits c.version.major ++ [46]
    ++ two_dec_digits c.version.minor ++ [32, 32] ++ [48 + c.log_mode.getD 0 % 10]

/-- Full 24-byte wire form of a cookie: the rendered string plus the five NUL
padding bytes, as `CookieData::buffer_ref` (cookie.rs lines 30-39) writes. -/
def cookie_wire (c : CookieData) : List Nat := cookie_to_string c ++ cookiePaddingBytes

/-- Impl `Buffer for CookieData::buffer_ref` (cookie.rs lines 30-39) against a
sink with `cap` bytes of space. -/
def buffer_cookie (c : CookieData) (cap : Nat) : BufResult :=
  if cap < COOKIE_SIZE then .outOfBuffer else .written (cookie_wire c)

/-- Helper for `from_dec` (cookie.rs lines 41-44): all bytes are ASCII decimal
digits, as `u8::from_str_radix` requires. -/
def all_dec_digits (bs : List Nat) : Bool := bs.all fun b => 48 ≤ b && b ≤ 57

/-- Decimal value of a digit byte string. -/
def dec_value (bs : List Nat) : Nat := bs.foldl (fun a b => a * 10 + (b - 48)) 0

/-- Function `from_dec` (cookie.rs lines 41-44): `u8::from_str_radix` on the
bytes — requires a nonempty all-digit string whose value fits a `u8`. -/
def from_dec (bs : List Nat) : Option Nat :=
  if bs.isEmpty then none
  else if all_dec_digits bs then
    if dec_value bs < 256 then some (dec_value bs) else none
  else none

/-- Function `dec_digits` (cookie.rs lines 46-49): split off `n` bytes
(`Bytes::split_to`, which panics when the buffer is shorter) and parse them as
decimal. -/
def dec_digits (buf : List Nat) (n : Nat) : DR Nat :=
  (split_to buf n).bind fun ds rest =>
    match from_dec ds with
    | some v => .ok v rest
    | none => .err .ParseIntErr rest

/-- Function `u8_to_log_mode` (cookie.rs lines 51-60): keep the INCOMING and
OUTGOING flag bits.  The `LogFlags` values live in `vrpn_base` (not under
src/); modelled from the spec's log-mode bit flags as the two low bits. -/
def u8_to_log_mode (v : Nat) : Nat := v % 4

/-- Impl `Unbuffer for CookieData::unbuffer_ref` (cookie.rs lines 62-88):
match the magic, parse `MM`, match the dot, parse `mm`, match two spaces,
parse the log digit, match the NUL padding. -/
def unbuffer_cookie (buf : List Nat) : DR CookieData :=
  (check_expected buf magicPrefixBytes).bind fun _ b1 =>
  (dec_digits b1 2).bind fun major b2 =>
  (check_expected b2 [46]).bind fun _ b3 =>
  (dec_digits b3 2).bind fun minor b4 =>
  (check_expected b4 [32, 32]).bind fun _ b5 =>
  (dec_digits b5 1).bind fun lm b6 =>
  (check_expected b6 cookiePaddingBytes).bind fun _ b7 =>
  .ok ⟨⟨major, minor⟩, some (u8_to_log_mode lm)⟩ b7

/-! ## Cookie handshake order (vrpn/src/connect.rs) -/

/-- One observable I/O action of the cookie handshake. -/
inductive HsEvent
  | writeBytes (bs : List Nat)
  | readExact (n : Nat)
deriving DecidableEq

/-- Error type `ConnectError` from vrpn/src/connect.rs (payloads dropped). -/
inductive ConnectError
  | versionError
  | unbufferError
  | ioError
deriving DecidableEq

/-- Outcome of a handshake step: success, or one of the connect errors. -/
inductive HsResult
  | success
  | failure (e : ConnectError)
deriving DecidableEq

/-- Modelled from the spec: constant `MAGIC_DATA` from `vrpn_base::constants`
(crate not under src/) — this implementation's own version, 07.35 per the
spec's cookie scenario. -/
def MAGIC_DATA : Version := ⟨7, 35⟩

/-- The cookie each endpoint writes: `CookieData::from(constants::MAGIC_DATA)`
with no log mode set (log-mode 0 for non-file streams). -/
def magic_cookie : CookieData := ⟨MAGIC_DATA, none⟩

/-- Modelled from the spec: `check_ver_nonfile_compatible` from
`vrpn_base::cookie` (crate not under src/) — major versions must match
exactly; failure is a fatal version error. -/
def check_ver_nonfile_compatible (v : Version) : HsResult :=
  if v.major = MAGIC_DATA.major then .success else .failure .versionError

/-- Parse the peer's cookie bytes and verify version compatibility, as both
`connect_tcp` and `handle_tcp_connection` do after their `read_exact`. -/
def parse_and_check (bs : List Nat) : HsResult :=
  match unbuffer_cookie bs with
  | .ok c _ => check_ver_nonfile_compatible c.version
  | _ => .failure .unbufferError

/-- Function `connect_tcp` (connect.rs lines 92-127): write the own cookie,
then read exactly `CookieData::constant_buffer_size()` peer bytes, then parse
and verify them.  Returns the I/O event trace and the outcome, given the peer
bytes the read will deliver. -/
def connect_tcp_events (peer : List Nat) : List HsEvent × HsResult :=
  ([.writeBytes (cookie_wire magic_cookie), .readExact COOKIE_SIZE],
   parse_and_check (peer.take COOKIE_SIZE))

/-- Function `handle_tcp_connection` (connect.rs lines 129-157): read exactly
the cookie size first, parse and verify, and only on success write the own
cookie afterwards. -/
def handle_tcp_connection_events (peer : List Nat) :
    List HsEvent × HsResult :=
  match parse_and_check (peer.take COOKIE_SIZE) with
  | .success => ([.readExact COOKIE_SIZE, .writeBytes (cookie_wire magic_cookie)], .success)
  | .failure e => ([.readExact COOKIE_SIZE], .failure e)

/-! ## Newer-crate unbuffer machinery (src/unbuffer.rs) and tracker bodies -/

/-- Error type `BufferUnbufferError` from src/buffer_unbuffer/error.rs
(`SizeRequirement` coincides with `BytesRequired`; string payloads dropped). -/
inductive BUError
  | NeedMoreData (r : BytesRequired)
  | UnexpectedAsciiData (actual expected : List Nat)
  | OutOfBuffer
  | HeaderSizeMismatch
  | ParseErr
deriving DecidableEq

/-- Result of an unbuffer operation of the newer crate; like `DR` but with its
error type.  `panic` marks `Buf::advance`/`copy_to_bytes` past the end. -/
inductive BR (α : Type)
  | panic
  | err (e : BUError) (rest : List Nat)
  | ok (v : α) (rest : List Nat)
deriving DecidableEq

/-- Sequencing of newer-crate unbuffer steps (the `?` operator). -/
def BR.bind {α β : Type} : BR α → (α → List Nat → BR β) → BR β
  | .panic, _ => .panic
  | .err e rest, _ => .err e rest
  | .ok v rest, f => f v rest

/-- Function `check_unbuffer_remaining` from src/unbuffer.rs (lines 74-84):
here the missing-byte count is `required_len - bytes_len`, the correct
order. -/
def check_unbuffer_remaining (buf : List Nat) (required_len : Nat) : Option BUError :=
  if buf.length < required_len then
    some (.NeedMoreData (.Exactly (required_len - buf.length)))
  else none

/-- Model of `Buf::advance(n)`: panics when `n` exceeds the remaining
length. -/
def buf_advance (bs : List Nat) (n : Nat) : Option (List Nat) :=
  if n ≤ bs.length then some (List.drop n bs) else none

/-- Blanket `impl<T: UnbufferConstantSize> Unbuffer for T` from
src/unbuffer.rs (lines 51-65): after the remaining-length check,
`buf.take(len).copy_to_bytes(len)` advances the underlying buffer by `len`,
and then `buf.advance(len)` advances it by `len` once more.  `conv` is the
type's `unbuffer_constant_size` on the copied bytes (total for the primitive
types modelled here, so the skip-advance-on-NeedMoreData branch does not
fire). -/
def unbuffer_ref_blanket {α : Type} (len : Nat) (conv : List Nat → α)
    (buf : List Nat) : BR α :=
  match check_unbuffer_remaining buf len with
  | some e => .err e buf
  | none =>
    let v := conv (List.take len buf)
    let buf1 := List.drop len buf
    match buf_advance buf1 len with
    | none => .panic
    | some buf2 => .ok v buf2

/-- Newer-crate unbuffering of a `u32`. -/
def unbuffer_u32_bl : List Nat → BR Nat := unbuffer_ref_blanket 4 be_to_nat

/-- Newer-crate unbuffering of an `i32` / `Sensor` (a wrapped `i32`, routed
through the blanket impl via `WrappedConstantSize`). -/
def unbuffer_i32_bl : List Nat → BR Int :=
  unbuffer_ref_blanket 4 fun bs => i32_of_bits (be_to_nat bs)

/-- Newer-crate unbuffering of an `f64`, kept as its raw 8-byte big-endian
pattern (the codec never interprets the floating-point value). -/
def unbuffer_f64_bl : List Nat → BR Nat := unbuffer_ref_blanket 8 be_to_nat

/-- Three `f64` bit patterns: the spec's `Vec3`. -/
structure Vec3W where
  x : Nat
  y : Nat
  z : Nat
deriving DecidableEq

/-- Four `f64` bit patterns (x, y, z, w): the spec's `Quat`. -/
structure QuatW where
  x : Nat
  y : Nat
  z : Nat
  w : Nat
deriving DecidableEq

/-- Struct `PoseReport` from src/tracker.rs (lines 24-31). -/
structure PoseReport where
  sensor : Int
  pos : Vec3W
  quat : QuatW
deriving DecidableEq

/-- Impl `ConstantBufferSize for PoseReport` (tracker.rs lines 38-44):
`Sensor * 2 + Vec3 + Quat` with the spec's primitive sizes (i32 = 4 bytes,
f64 = 8 bytes). -/
def pose_constant_buffer_size : Nat := 4 * 2 + 3 * 8 + 4 * 8

/-- Impl `Buffer for PoseReport::buffer_ref` (tracker.rs lines 46-56): sensor,
sensor again as padding, the three position `f64`s, the four quaternion
`f64`s, each big-endian (primitive `Buffer` impls are in the missing
buffer_unbuffer/primitives module, modelled from the spec). -/
def buffer_pose (p : PoseReport) : List Nat :=
  i32_be p.sensor ++ i32_be p.sensor
    ++ u64_be p.pos.x ++ u64_be p.pos.y ++ u64_be p.pos.z
    ++ u64_be p.quat.x ++ u64_be p.quat.y ++ u64_be p.quat.z ++ u64_be p.quat.w

/-- Impl `Unbuffer for PoseReport::unbuffer_ref` (tracker.rs lines 58-67):
check the total size, then unbuffer sensor, padding sensor, three position
`f64`s and four quaternion `f64`s, each through the newer-crate blanket
impl. -/
def unbuffer_pose (buf : List Nat) : BR PoseReport :=
  match check_unbuffer_remaining buf pose_constant_buffer_size with
  | some e => .err e buf
  | none =>
    (unbuffer_i32_bl buf).bind fun sensor b1 =>
    (unbuffer_i32_bl b1).bind fun _ b2 =>
    (unbuffer_f64_bl b2).bind fun px b3 =>
    (unbuffer_f64_bl b3).bind fun py b4 =>
    (unbuffer_f64_bl b4).bind fun pz b5 =>
    (unbuffer_f64_bl b5).bind fun qx b6 =>
    (unbuffer_f64_bl b6).bind fun qy b7 =>
    (unbuffer_f64_bl b7).bind fun qz b8 =>
    (unbuffer_f64_bl b8).bind fun qw b9 =>
    .ok ⟨sensor, ⟨px, py, pz⟩, ⟨qx, qy, qz, qw⟩⟩ b9

/-! ## Inversion helpers -/

/-- A bind that produced a success came from a success of its first step. -/
theorem DR.bind_ok {α β : Type} {x : DR α} {f : α → List Nat → DR β} {v : β}
    {rest : List Nat} (h : x.bind f = .ok v rest) :
    ∃ a r, x = .ok a r ∧ f a r = .ok v rest := by
  cases x with
  | panic => exact absurd h (by simp [DR.bind])
  | err e r => exact absurd h (by simp [DR.bind])
  | ok a r => exact ⟨a, r, rfl, h⟩

/-- The exactly-to-at-least wrapper leaves successes untouched. -/
theorem map_exactly_ok {α : Type} {x : DR α} {v : α} {r : List Nat}
    (h : map_exactly_err_to_at_least x = .ok v r) : x = .ok v r := by
  cases x with
  | panic => exact absurd h (by simp [map_exactly_err_to_at_least])
  | err e rest => exact absurd h (by simp [map_exactly_err_to_at_least])
  | ok a rest => simpa [map_exactly_err_to_at_least] using h

/-- A successful `split_to` hands back exactly `n` bytes. -/
theorem split_to_ok_length {bs : List Nat} {n : Nat} {v r : List Nat}
    (h : split_to bs n = .ok v r) : v.length = n := by
  unfold split_to at h
  split at h
  · rename_i hle
    injection h with hv hr
    subst hv
    rw [List.length_take]
    omega
  · exact absurd h (by simp)

/-- A successful `u32` unbuffer returns the big-endian value of the first four
bytes. -/
theorem unbuffer_u32_ok {bs : List Nat} {v : Nat} {r : List Nat}
    (h : unbuffer_u32 bs = .ok v r) : v = be_to_nat (List.take 4 bs) := by
  unfold unbuffer_u32 unbuffer_constant at h
  split at h
  · exact absurd h (by simp)
  · injection h with hv hr
    exact hv.symm

/-! ## Claim theorems -/

/-- C1: the round-trip codec law fails on the code.  For the message
`{time = (1, 2), sender = 0, type = 0, seq = 1, body = [1]}` the encoder emits
40 bytes although `buffer_size` reports 32 (it pads the already-aligned
24-byte header with 8 further zero bytes), and decoding the emitted bytes
returns the body `[0]` — the decoder skips only 4 padding bytes after the
header, so it reads the body 4 bytes early — with 4 bytes left over.  The
decoded message differs from the original, refuting
`decode(encode(v)) = v` and the exact-`buffer_size` write count. -/
theorem c1_roundtrip_fails :
    (buffer_msg_bytes ⟨⟨1, 2⟩, 0, 0, [1], some 1⟩).length = 40 ∧
    buffer_size_msg ⟨⟨1, 2⟩, 0, 0, [1], some 1⟩ = 32 ∧
    (40 : Nat) ≠ 32 ∧
    buffer_msg ⟨⟨1, 2⟩, 0, 0, [1], some 1⟩ 64 =
      .written (buffer_msg_bytes ⟨⟨1, 2⟩, 0, 0, [1], some 1⟩) ∧
    unbuffer_message (buffer_msg_bytes ⟨⟨1, 2⟩, 0, 0, [1], some 1⟩) =
      .ok ⟨⟨1, 2⟩, 0, 0, [0], some 1⟩ [0, 0, 0, 0] ∧
    (⟨⟨1, 2⟩, 0, 0, [0], some 1⟩ : Message) ≠ ⟨⟨1, 2⟩, 0, 0, [1], some 1⟩ := by
  decide

/-- Valid 36-byte message frame: length field 20, time (1, 2), sender 0,
type 0, sequence 1, empty body; the decoder consumes it completely. -/
def c2Frame : List Nat :=
  [0, 0, 0, 20, 0, 0, 0, 1, 0, 0, 0, 2, 0, 0, 0, 0, 0, 0, 0, 0, 0, 0, 0, 1]
    ++ List.replicate 12 0

/-- C2: decoding a 10-byte proper prefix of a valid frame returns
`NeedMoreData` but consumes the 4-byte length field (the cursor is NOT where
it was: `[0,0,0,1,0,0]` remains of the 10 bytes), the reported requirement is
`Exactly` rather than the spec's at-least, and re-running the decoder after
appending the missing 26 bytes does not return the original message — it
misreads the time field as the length and panics in `Bytes::split_to`. -/
theorem c2_truncated_frame_consumes :
    unbuffer_message c2Frame = .ok ⟨⟨1, 2⟩, 0, 0, [], some 1⟩ [] ∧
    unbuffer_message (c2Frame.take 10) =
      .err (.NeedMoreData (.Exactly 22)) [0, 0, 0, 1, 0, 0] ∧
    [0, 0, 0, 1, 0, 0] ≠ c2Frame.take 10 ∧
    unbuffer_message ([0, 0, 0, 1, 0, 0] ++ c2Frame.drop 10) = .panic := by
  decide

/-- C3: `compute_padding` computes `ALIGN - n % ALIGN` without the final
reduction mod `ALIGN`, so at the aligned lengths 0, 8 and 24 it returns 8
where the claimed formula `(ALIGN - n % ALIGN) % ALIGN` gives 0. -/
theorem c3_compute_padding_aligned :
    compute_padding 8 = 8 ∧ compute_padding 0 = 8 ∧ compute_padding 24 = 8 ∧
    (ALIGN - 8 % ALIGN) % ALIGN = 0 ∧
    compute_padding 8 ≠ (ALIGN - 8 % ALIGN) % ALIGN := by
  decide

/-- C4: for the scenario message `{time = (1, 2), sender = 0, type = 0,
seq = 1, body = []}` the length field is indeed 20, but the encoder emits 40
bytes (not 24): the 24-byte header, 8 padding zeros, and 8 more padding zeros
for the empty body.  Unbuffering the emitted bytes does return the same
record, but consumes 36 bytes, leaving 4 — not the claimed 24-byte frame with
cursor at 24. -/
theorem c4_s2_wire :
    buffer_msg_bytes ⟨⟨1, 2⟩, 0, 0, [], some 1⟩ =
      [0, 0, 0, 20, 0, 0, 0, 1, 0, 0, 0, 2, 0, 0, 0, 0, 0, 0, 0, 0, 0, 0, 0, 1]
        ++ List.replicate 16 0 ∧
    (buffer_msg_bytes ⟨⟨1, 2⟩, 0, 0, [], some 1⟩).length = 40 ∧
    (buffer_msg_bytes ⟨⟨1, 2⟩, 0, 0, [], some 1⟩).take 4 = [0, 0, 0, 20] ∧
    unbuffer_message (buffer_msg_bytes ⟨⟨1, 2⟩, 0, 0, [], some 1⟩) =
      .ok ⟨⟨1, 2⟩, 0, 0, [], some 1⟩ [0, 0, 0, 0] ∧
    (40 : Nat) ≠ 24 := by
  decide

/-- Valid 36-byte message frame with length field 21 and the one-byte body
`[5]`: time (3, 4), sender 1, type 2, sequence 9. -/
def c5Frame : List Nat :=
  [0, 0, 0, 21, 0, 0, 0, 3, 0, 0, 0, 4, 0, 0, 0, 1, 0, 0, 0, 2, 0, 0, 0, 9,
    0, 0, 0, 0, 5] ++ List.replicate 7 0

/-- C5 counterexample: a frame with length field 21 decodes successfully
reading exactly 1 body byte, but `21 - 24 ≠ 1` — the body length is the
length field minus 20 (`UNPADDED_HEADER_SIZE`), not minus 24. -/
theorem c5_counterexample :
    unbuffer_message c5Frame = .ok ⟨⟨3, 4⟩, 1, 2, [5], some 9⟩ [] ∧
    be_to_nat (c5Frame.take 4) = 21 ∧
    ((⟨⟨3, 4⟩, 1, 2, [5], some 9⟩ : Message).data.length : Int) ≠ (21 : Int) - 24 := by
  decide

set_option maxRecDepth 4096 in
/-- C5 (amended): whenever the message frame decoder succeeds, the number of
body bytes it read equals the value of the length field (the big-endian `u32`
in the first four input bytes) minus `UNPADDED_HEADER_SIZE = 20`, computed in
wrapping `usize` arithmetic. -/
theorem c5_body_length (bs : List Nat) (m : Message) (rest : List Nat)
    (h : unbuffer_message bs = .ok m rest) :
    m.data.length = usizeSub (be_to_nat (List.take 4 bs)) UNPADDED_HEADER_SIZE := by
  unfold unbuffer_message at h
  obtain ⟨len, b1, h1, h⟩ := DR.bind_ok h
  have h1' : unbuffer_u32 bs = .ok len b1 := map_exactly_ok h1
  have hlen : len = be_to_nat (List.take 4 bs) := unbuffer_u32_ok h1'
  split at h
  · exact absurd h (by simp)
  · obtain ⟨time, b2, -, h⟩ := DR.bind_ok h
    obtain ⟨sender, b3, -, h⟩ := DR.bind_ok h
    obtain ⟨mtype, b4, -, h⟩ := DR.bind_ok h
    obtain ⟨seq, b5, -, h⟩ := DR.bind_ok h
    obtain ⟨pad1, b6, -, h⟩ := DR.bind_ok h
    obtain ⟨data_buf, b7, hdata, h⟩ := DR.bind_ok h
    obtain ⟨pad2, b8, -, h⟩ := DR.bind_ok h
    cases h
    rw [← hlen]
    exact split_to_ok_length hdata

/-- C5 witness: the amended statement instantiated at the concrete frame
`c5Frame` (length field 21, one body byte). -/
theorem c5_body_length_witness :
    (⟨⟨3, 4⟩, 1, 2, [5], some 9⟩ : Message).data.length =
      usizeSub (be_to_nat (List.take 4 c5Frame)) UNPADDED_HEADER_SIZE :=
  c5_body_length c5Frame ⟨⟨3, 4⟩, 1, 2, [5], some 9⟩ [] (by decide)

/-- C6: for a `u32` (constant size 4) unbuffered from a 2-byte buffer the
blanket impl reports `NeedMoreData(Exactly(2^64 - 2))` — the source computes
`buf.len() - len` with the operands reversed, a `usize` underflow (release
builds wrap; debug builds panic) — instead of the claimed `4 - 2 = 2`;
`check_expected` against a 5-byte literal with 3 bytes available underflows
the same way.  The newer crate's `check_unbuffer_remaining` computes the
correct `Exactly 2` for the same shortfall. -/
theorem c6_needmoredata_underflow :
    unbuffer_u32 [7, 7] =
      .err (.NeedMoreData (.Exactly 18446744073709551614)) [7, 7] ∧
    (18446744073709551614 : Nat) ≠ 4 - 2 ∧
    check_expected [0, 0, 0] cookiePaddingBytes =
      .err (.NeedMoreData (.Exactly 18446744073709551614)) [0, 0, 0] ∧
    check_unbuffer_remaining [7, 7] 4 = some (.NeedMoreData (.Exactly 2)) := by
  decide

/-- C7: buffering the cookie `{version: 07.35, log_mode: 0}` writes exactly
24 bytes, the first 19 being the ASCII of `vrpn: ver. 07.35  0` and the last
5 NUL, and unbuffering those 24 bytes returns an equal record with nothing
left over. -/
theorem c7_cookie_roundtrip :
    buffer_cookie ⟨⟨7, 35⟩, some 0⟩ 24 = .written (cookie_wire ⟨⟨7, 35⟩, some 0⟩) ∧
    (cookie_wire ⟨⟨7, 35⟩, some 0⟩).length = 24 ∧
    (cookie_wire ⟨⟨7, 35⟩, some 0⟩).take 19 =
      [118, 114, 112, 110, 58, 32, 118, 101, 114, 46, 32, 48, 55, 46, 51, 53, 32, 32, 48] ∧
    (cookie_wire ⟨⟨7, 35⟩, some 0⟩).drop 19 = [0, 0, 0, 0, 0] ∧
    unbuffer_cookie (cookie_wire ⟨⟨7, 35⟩, some 0⟩) = .ok ⟨⟨7, 35⟩, some 0⟩ [] := by
  decide

/-- The spec's S3 pose report: sensor 3, position (1.0, 2.0, 3.0) and
quaternion (0, 0, 0, 1.0) as their IEEE-754 bit patterns. -/
def c8Pose : PoseReport :=
  ⟨3, ⟨0x3FF0000000000000, 0x4000000000000000, 0x4008000000000000⟩,
    ⟨0, 0, 0, 0x3FF0000000000000⟩⟩

/-- C8: the pose report's buffer size is 64 and buffering writes sensor,
sensor again as padding, the three position doubles and the four quaternion
doubles — but unbuffering the 64 written bytes does NOT return the report:
every constant-size field read advances the buffer twice its size (the
`take`/`copy_to_bytes` already advances before the explicit `advance`), so
after seven misaligned reads the quaternion runs out of bytes and the call
returns `NeedMoreData(Exactly 8)`. -/
theorem c8_pose_unbuffer_fails :
    pose_constant_buffer_size = 64 ∧
    (buffer_pose c8Pose).length = 64 ∧
    buffer_pose c8Pose =
      [0, 0, 0, 3, 0, 0, 0, 3, 63, 240, 0, 0, 0, 0, 0, 0, 64, 0, 0, 0, 0, 0, 0, 0,
        64, 8, 0, 0, 0, 0, 0, 0] ++ List.replicate 24 0
        ++ [63, 240, 0, 0, 0, 0, 0, 0] ∧
    unbuffer_pose (buffer_pose c8Pose) = .err (.NeedMoreData (.Exactly 8)) [] ∧
    (BR.err (.NeedMoreData (.Exactly 8)) [] : BR PoseReport) ≠ .ok c8Pose [] := by
  decide

/-- C9 counterexample: the accepting endpoint (`handle_tcp_connection`) does
not write first — fed a valid peer cookie, its first handshake action is the
exact-size read of the peer cookie, and its own cookie is written only
afterwards. -/
theorem c9_counterexample :
    handle_tcp_connection_events (cookie_wire magic_cookie) =
      ([.readExact 24, .writeBytes (cookie_wire magic_cookie)], .success) ∧
    HsEvent.readExact 24 ≠ .writeBytes (cookie_wire magic_cookie) := by
  decide

/-- C9 (amended): the connecting endpoint (`connect_tcp`) writes its own
cookie first and then reads the peer cookie as exactly the fixed cookie size,
whereas the accepting endpoint (`handle_tcp_connection`) always begins with
the exact-size read and writes its own cookie only after verification; on a
peer cookie whose major version differs (08.35), both endpoints fail the
handshake with a version error (and the accepting endpoint never writes). -/
theorem c9_handshake_order :
    (∀ peer, (connect_tcp_events peer).1 =
      [.writeBytes (cookie_wire magic_cookie), .readExact COOKIE_SIZE]) ∧
    (∀ peer, ((handle_tcp_connection_events peer).1).head? =
      some (.readExact COOKIE_SIZE)) ∧
    connect_tcp_events (cookie_wire ⟨⟨8, 35⟩, some 0⟩) =
      ([.writeBytes (cookie_wire magic_cookie), .readExact COOKIE_SIZE],
        .failure .versionError) ∧
    handle_tcp_connection_events (cookie_wire ⟨⟨8, 35⟩, some 0⟩) =
      ([.readExact COOKIE_SIZE], .failure .versionError) := by
  refine ⟨fun peer => rfl, fun peer => ?_, by decide, by decide⟩
  unfold handle_tcp_connection_events
  cases parse_and_check (List.take COOKIE_SIZE peer) <;> rfl

/-- C10: the newer-crate blanket impl does not advance by exactly the
constant size on success — unbuffering a `u32` from an 8-byte buffer returns
the value but leaves 0 bytes instead of 4 (it advances 8: once inside
`copy_to_bytes`, once in the explicit `advance`); on a buffer of exactly the
constant size the second advance runs past the end and panics; only the
underfilled-error case leaves the buffer unchanged as claimed. -/
theorem c10_double_advance :
    unbuffer_u32_bl [0, 0, 0, 5, 9, 9, 9, 9] = .ok 5 [] ∧
    ([] : List Nat) ≠ [9, 9, 9, 9] ∧
    unbuffer_u32_bl [0, 0, 0, 5] = .panic ∧
    unbuffer_u32_bl [1, 2] = .err (.NeedMoreData (.Exactly 2)) [1, 2] := by
  decide

end VrpnRs
